import Mathlib

/-!
Shallow embedding of the pynxm Nexus API client (pynxm.py) and proofs about
its request-dispatch pipeline.

Modelling conventions:
* The HTTP transport is a parameter `server : Request → RawResponse`: the
  `requests.Session.request` call is `server` applied to the request the
  client builds.  `RawResponse.body` is the JSON parse of the raw body
  (`Option Json`; `none` models a body that is not valid JSON, where
  `response.json()` would raise a decode error).
* Python exceptions become the `PyError` sum and results `Except PyError _`.
* The module-level `USER_AGENT` string is computed once from platform facts;
  it is passed to `Nexus.init` as an explicit argument.
* Mutable state (`self.nexus_headers`) is explicit: stateful methods return
  the updated `Session` alongside the result.
-/

namespace Pynxm

/-- Python JSON values (the result of `response.json()`). -/
inductive Json where
  | null
  | bool (b : Bool)
  | num (n : Int)
  | str (s : String)
  | arr (elems : List Json)
  | obj (fields : List (String × Json))

mutual

/-- Python `repr` of a JSON value (as produced for `str.format` on
non-string values). -/
def Json.pyRepr : Json → String
  | .null => "None"
  | .bool true => "True"
  | .bool false => "False"
  | .num n => toString n
  | .str s => "\x27" ++ s ++ "\x27"
  | .arr elems => "[" ++ jsonListRepr elems ++ "]"
  | .obj fields => "\x7b" ++ jsonFieldsRepr fields ++ "\x7d"

/-- Comma-separated `repr` of list elements. -/
def jsonListRepr : List Json → String
  | [] => ""
  | [j] => j.pyRepr
  | j :: rest => j.pyRepr ++ ", " ++ jsonListRepr rest

/-- Comma-separated `repr` of dict entries. -/
def jsonFieldsRepr : List (String × Json) → String
  | [] => ""
  | [(k, v)] => "\x27" ++ k ++ "\x27: " ++ v.pyRepr
  | (k, v) :: rest => "\x27" ++ k ++ "\x27: " ++ v.pyRepr ++ ", " ++ jsonFieldsRepr rest

end

/-- Python `str` of a JSON value, as used by `"{}".format(msg)`. -/
def Json.pyStr : Json → String
  | .str s => s
  | j => j.pyRepr

/-- Python substring test `pat in s` on character lists. -/
def containsSub (pat : List Char) : List Char → Bool
  | [] => pat.isEmpty
  | c :: rest => pat.isPrefixOf (c :: rest) || containsSub pat rest

/-- Python substring test `pat in s` on strings (case-sensitive). -/
def strContains (s pat : String) : Bool :=
  containsSub pat.toList s.toList

/-- Python `str.upper`, as applied to the HTTP verb. -/
def strUpper (s : String) : String := ⟨s.data.map Char.toUpper⟩

/-- Python exceptions that the pipeline can raise. `limitReachedError` and
`requestError` are the two classes declared in pynxm.py; `valueError`,
`keyError`, `jsonDecodeError` and `typeError` are built-in / library
exceptions escaping untyped. -/
inductive PyError where
  | limitReachedError (msg : String)
  | requestError (msg : String)
  | valueError (msg : String)
  | keyError (key : String)
  | jsonDecodeError
  | typeError

/-- Whether an exception belongs to the error taxonomy pynxm.py itself
declares (`LimitReachedError`, `RequestError`). -/
def PyError.isDeclaredError : PyError → Bool
  | .limitReachedError _ => true
  | .requestError _ => true
  | _ => false

/-- pynxm.py: `BASE_URL = "https://api.nexusmods.com/v1/"`. -/
def BASE_URL : String := "https://api.nexusmods.com/v1/"

/-- pynxm.py: the module-level `USER_AGENT` format string, applied to the
platform facts gathered at import time. -/
def USER_AGENT (version platformInfo arch impl implVersion : String) : String :=
  "pynxm/" ++ version ++ " (" ++ platformInfo ++ "; " ++ arch ++ ") "
    ++ impl ++ "/" ++ implVersion

/-- The HTTP request `requests.Session.request` is invoked with: method,
url, query parameters, form body, and the merged headers. -/
structure Request where
  operation : String
  url : String
  params : List (String × String)
  data : List (String × String)
  headers : List (String × String)

/-- Raw HTTP response: status code, headers, transport reason phrase, and
the JSON parse of the body (`none` when the body is not valid JSON). -/
structure RawResponse where
  status_code : Nat
  headers : List (String × String)
  reason : String
  body : Option Json

/-- Client state: the transport session's persistent headers and the
`nexus_headers` metadata mapping. -/
structure Session where
  headers : List (String × String)
  nexus_headers : List (String × String)

/-- `Nexus.__init__`: set the persistent `user-agent`, `apikey` and
`content-type` headers; `nexus_headers` starts empty. -/
def Nexus.init (user_agent api_key : String) : Session :=
  { headers := [("user-agent", user_agent), ("apikey", api_key),
      ("content-type", "application/json")]
    nexus_headers := [] }

/-- Header merging done by `requests`: the session's persistent headers are
defaults, per-call headers win on conflict; the session's own mapping is
not modified. -/
def mergeHeaders (base overrides : List (String × String)) : List (String × String) :=
  base.filter (fun kv => (overrides.lookup kv.1).isNone) ++ overrides

/-- The request `_make_request` hands to the transport (pynxm.py lines
98-105): upper-cased method, `BASE_URL + endpoint`, the given params and
form data, and the merged headers. -/
def buildRequest (session_headers : List (String × String))
    (operation endpoint : String)
    (payload data headers : List (String × String)) : Request :=
  { operation := strUpper operation
    url := BASE_URL ++ endpoint
    params := payload
    data := data
    headers := mergeHeaders session_headers headers }

/-- The fixed 429 message (pynxm.py lines 110-113). -/
def limitMessage : String :=
  "You have reached your request limit. Please wait one hour before trying again."

/-- `"Status Code {} - {}".format(status_code, msg)`. -/
def statusMessage (status_code : Nat) (msg : String) : String :=
  "Status Code " ++ toString status_code ++ " - " ++ msg

/-- Python dict subscript `d[k]` on a JSON value: a lookup on a dict, a
`KeyError` when the key is missing, a `TypeError` on non-dicts.  Used below
inline on `obj` bodies. -/
def Json.getKey : Json → String → Option Json
  | .obj fields, k => fields.lookup k
  | _, _ => none

/-- Status-code classification of `_make_request` (pynxm.py lines
106-122, outcome part): 200/201 return the parsed body; 429 raises
`LimitReachedError`; 503/504 raise `RequestError` from the reason phrase;
anything else parses the body and raises `RequestError` from its `message`
field, falling back to `error`; a body with neither escapes as `KeyError`. -/
def classifyResponse (response : RawResponse) : Except PyError Json :=
  let status_code := response.status_code
  if ¬(status_code = 200 ∨ status_code = 201) then
    if status_code = 429 then
      .error (.limitReachedError limitMessage)
    else if status_code = 503 ∨ status_code = 504 then
      .error (.requestError (statusMessage status_code response.reason))
    else
      match response.body with
      | none => .error .jsonDecodeError
      | some (.obj fields) =>
        match fields.lookup "message" with
        | some m => .error (.requestError (statusMessage status_code m.pyStr))
        | none =>
          match fields.lookup "error" with
          | some m => .error (.requestError (statusMessage status_code m.pyStr))
          | none => .error (.keyError "error")
      | some _ => .error .typeError
  else
    match response.body with
    | some j => .ok j
    | none => .error .jsonDecodeError

/-- State-and-outcome effect of a response on the session (pynxm.py lines
106-122): `self.nexus_headers` is unconditionally replaced by the response
headers whose names contain the substring `"X-"`, then the status code is
classified. -/
def dispatchResponse (self : Session) (response : RawResponse) :
    Session × Except PyError Json :=
  ({ self with
      nexus_headers := response.headers.filter (fun kv => strContains kv.1 "X-") },
    classifyResponse response)

/-- `Nexus._make_request` (pynxm.py lines 91-122): normalize absent
payload/data/headers to empty mappings, perform the call through the
transport, refresh `nexus_headers`, and classify the status code. -/
def make_request (server : Request → RawResponse) (self : Session)
    (operation endpoint : String)
    (payload data headers : Option (List (String × String))) :
    Session × Except PyError Json :=
  let payload := payload.getD []
  let data := data.getD []
  let headers := headers.getD []
  dispatchResponse self
    (server (buildRequest self.headers operation endpoint payload data headers))

/-- Query-string encoding of the request params (no percent-encoding is
needed for the values the claims exercise). -/
def queryString (params : List (String × String)) : String :=
  String.intercalate "&" (params.map (fun kv => kv.1 ++ "=" ++ kv.2))

/-- Python `str` of a boolean, as `requests` renders boolean query values. -/
def pyBool (b : Bool) : String := if b then "True" else "False"

/-- `colour_schemes_list`. -/
def colour_schemes_list (server : Request → RawResponse) (self : Session) :
    Session × Except PyError Json :=
  make_request server self "get" "colourschemes.json" none none none

/-- `user_details`. -/
def user_details (server : Request → RawResponse) (self : Session) :
    Session × Except PyError Json :=
  make_request server self "get" "users/validate.json" none none none

/-- `user_tracked_list`. -/
def user_tracked_list (server : Request → RawResponse) (self : Session) :
    Session × Except PyError Json :=
  make_request server self "get" "user/tracked_mods.json" none none none

/-- `user_tracked_add` (pynxm.py lines 143-156): POST with query
`domain_name`, form body `mod_id`, a one-off urlencoded content-type, and
no `return` statement — the decoded response is discarded. -/
def user_tracked_add (server : Request → RawResponse) (self : Session)
    (game mod_id : String) : Session × Except PyError Unit :=
  let r := make_request server self "post" "user/tracked_mods.json"
    (some [("domain_name", game)]) (some [("mod_id", mod_id)])
    (some [("content-type", "application/x-www-form-urlencoded")])
  (r.1, r.2.map (fun _ => ()))

/-- `user_tracked_delete` (pynxm.py lines 158-171): like
`user_tracked_add` with the DELETE verb; the decoded response is
discarded. -/
def user_tracked_delete (server : Request → RawResponse) (self : Session)
    (game mod_id : String) : Session × Except PyError Unit :=
  let r := make_request server self "delete" "user/tracked_mods.json"
    (some [("domain_name", game)]) (some [("mod_id", mod_id)])
    (some [("content-type", "application/x-www-form-urlencoded")])
  (r.1, r.2.map (fun _ => ()))

/-- `user_endorsements_list`. -/
def user_endorsements_list (server : Request → RawResponse) (self : Session) :
    Session × Except PyError Json :=
  make_request server self "get" "user/endorsements.json" none none none

/-- `game_details`. -/
def game_details (server : Request → RawResponse) (self : Session)
    (game : String) : Session × Except PyError Json :=
  make_request server self "get" ("games/" ++ game ++ ".json") none none none

/-- `game_list`. -/
def game_list (server : Request → RawResponse) (self : Session)
    (include_unapproved : Bool) : Session × Except PyError Json :=
  make_request server self "get" "games.json"
    (some [("include_unapproved", pyBool include_unapproved)]) none none

/-- The `ValueError` message of `game_updated_list`. -/
def periodErrorMessage : String :=
  "Allowed values for \x27period\x27 argument: \x271d\x27, \x271w\x27, \x271m\x27."

/-- `game_updated_list` (pynxm.py lines 197-209): reject a period outside
`("1d", "1w", "1m")` with a `ValueError` before any request is made. -/
def game_updated_list (server : Request → RawResponse) (self : Session)
    (game period : String) : Session × Except PyError Json :=
  if ¬(period = "1d" ∨ period = "1w" ∨ period = "1m") then
    (self, .error (.valueError periodErrorMessage))
  else
    make_request server self "get" ("games/" ++ game ++ "/mods/updated.json")
      (some [("period", period)]) none none

/-- `game_latest_added_list`. -/
def game_latest_added_list (server : Request → RawResponse) (self : Session)
    (game : String) : Session × Except PyError Json :=
  make_request server self "get" ("games/" ++ game ++ "/mods/latest_added.json")
    none none none

/-- `game_latest_updated_list`. -/
def game_latest_updated_list (server : Request → RawResponse) (self : Session)
    (game : String) : Session × Except PyError Json :=
  make_request server self "get" ("games/" ++ game ++ "/mods/latest_updated.json")
    none none none

/-- `game_trending_list`. -/
def game_trending_list (server : Request → RawResponse) (self : Session)
    (game : String) : Session × Except PyError Json :=
  make_request server self "get" ("games/" ++ game ++ "/mods/trending.json")
    none none none

/-- `mod_details`. -/
def mod_details (server : Request → RawResponse) (self : Session)
    (game mod_id : String) : Session × Except PyError Json :=
  make_request server self "get"
    ("games/" ++ game ++ "/mods/" ++ mod_id ++ ".json") none none none

/-- `mod_search`. -/
def mod_search (server : Request → RawResponse) (self : Session)
    (game md5_hash : String) : Session × Except PyError Json :=
  make_request server self "get"
    ("games/" ++ game ++ "/mods/md5_search/" ++ md5_hash ++ ".json") none none none

/-- `mod_endorse`. -/
def mod_endorse (server : Request → RawResponse) (self : Session)
    (game mod_id : String) : Session × Except PyError Json :=
  make_request server self "post"
    ("games/" ++ game ++ "/mods/" ++ mod_id ++ "/endorse.json") none none none

/-- `mod_abstain`. -/
def mod_abstain (server : Request → RawResponse) (self : Session)
    (game mod_id : String) : Session × Except PyError Json :=
  make_request server self "post"
    ("games/" ++ game ++ "/mods/" ++ mod_id ++ "/abstain.json") none none none

/-- The `categories` argument of `mod_file_list`: Python accepts a
list/tuple, a string, or `None` (anything that is neither list, tuple nor
string falls into the `None` branch). -/
inductive CategoriesArg where
  | ofList (cs : List String)
  | ofStr (s : String)
  | absent

/-- `mod_file_list` (pynxm.py lines 279-299): list-valued categories are
joined with commas; `None` suppresses the query entirely. -/
def mod_file_list (server : Request → RawResponse) (self : Session)
    (game mod_id : String) (categories : CategoriesArg) :
    Session × Except PyError Json :=
  let payload : Option (List (String × String)) :=
    match categories with
    | .ofList cs => some [("category", String.intercalate "," cs)]
    | .ofStr s => some [("category", s)]
    | .absent => none
  make_request server self "get"
    ("games/" ++ game ++ "/mods/" ++ mod_id ++ "/files.json") payload none none

/-- `mod_file_details`. -/
def mod_file_details (server : Request → RawResponse) (self : Session)
    (game mod_id file_id : String) : Session × Except PyError Json :=
  make_request server self "get"
    ("games/" ++ game ++ "/mods/" ++ mod_id ++ "/files/" ++ file_id ++ ".json")
    none none none

/-- `mod_file_download_link` (pynxm.py lines 313-335): if either of
`nxm_key` / `expires` is `None` the payload is `None`, otherwise both are
sent. -/
def mod_file_download_link (server : Request → RawResponse) (self : Session)
    (game mod_id file_id : String) (nxm_key expires : Option String) :
    Session × Except PyError Json :=
  let payload : Option (List (String × String)) :=
    match nxm_key, expires with
    | some k, some e => some [("key", k), ("expires", e)]
    | _, _ => none
  make_request server self "get"
    ("games/" ++ game ++ "/mods/" ++ mod_id ++ "/files/" ++ file_id
      ++ "/download_link.json") payload none none

/-- `mod_changelog_list`. -/
def mod_changelog_list (server : Request → RawResponse) (self : Session)
    (game mod_id : String) : Session × Except PyError Json :=
  make_request server self "get"
    ("games/" ++ game ++ "/mods/" ++ mod_id ++ "/changelogs.json") none none none

/-! Helper lemmas about substring containment. -/

theorem isPrefixOf_append_self (l t : List Char) : l.isPrefixOf (l ++ t) = true := by
  induction l with
  | nil => simp [List.isPrefixOf]
  | cons a as ih => simp [List.isPrefixOf, ih]

theorem containsSub_append (pat a b : List Char) :
    containsSub pat (a ++ (pat ++ b)) = true := by
  induction a with
  | nil =>
    cases pat with
    | nil =>
      cases b with
      | nil => rfl
      | cons c rest => simp [containsSub, List.isPrefixOf]
    | cons p ps =>
      have h := isPrefixOf_append_self (p :: ps) b
      simp only [List.cons_append] at h
      simp [containsSub, h]
  | cons c cs ih => simp [containsSub, ih]

theorem strContains_append (a pat b : String) :
    strContains (a ++ pat ++ b) pat = true := by
  have h : (a ++ pat ++ b).toList = a.toList ++ (pat.toList ++ b.toList) := by
    simp [String.toList, String.data_append]
  simp [strContains, h, containsSub_append]

theorem strContains_statusMessage_code (sc : Nat) (msg : String) :
    strContains (statusMessage sc msg) (toString sc) = true := by
  have h := strContains_append "Status Code " (toString sc) (" - " ++ msg)
  simpa [statusMessage, String.append_assoc] using h

theorem strContains_statusMessage_msg (sc : Nat) (msg : String) :
    strContains (statusMessage sc msg) msg = true := by
  have h := strContains_append ("Status Code " ++ toString sc ++ " - ") msg ""
  simpa [statusMessage, String.append_assoc, String.append_empty] using h

/-! Claim theorems. -/

/-- C1: for every response with status code 200 or 201, `_make_request`
parses the response body as JSON and returns that parsed value unchanged
to the caller, for all operations, endpoints and parameter mappings. -/
theorem make_request_success_returns_body (server : Request → RawResponse)
    (self : Session) (operation endpoint : String)
    (payload data headers : Option (List (String × String)))
    (resp : RawResponse) (j : Json)
    (hresp : server (buildRequest self.headers operation endpoint
      (payload.getD []) (data.getD []) (headers.getD [])) = resp)
    (hstatus : resp.status_code = 200 ∨ resp.status_code = 201)
    (hbody : resp.body = some j) :
    (make_request server self operation endpoint payload data headers).2 = .ok j := by
  rcases hstatus with h | h <;>
    simp [make_request, dispatchResponse, classifyResponse, hresp, h, hbody]

/-- Witness for C1 at a concrete server, session and body. -/
theorem make_request_success_returns_body_witness :
    (make_request (fun _ => RawResponse.mk 200 [("X-RL", "38")] "OK"
        (some (.obj [("test", .str "content")])))
      (Nexus.init "ua" "key") "get" "colourschemes.json" none none none).2 =
      .ok (.obj [("test", .str "content")]) :=
  make_request_success_returns_body
    (fun _ => RawResponse.mk 200 [("X-RL", "38")] "OK"
      (some (.obj [("test", .str "content")])))
    (Nexus.init "ua" "key") "get" "colourschemes.json" none none none
    (RawResponse.mk 200 [("X-RL", "38")] "OK"
      (some (.obj [("test", .str "content")])))
    (.obj [("test", .str "content")]) rfl (.inl rfl) rfl

/-- C2: for every response with status code 429, `_make_request` fails with
`LimitReachedError` carrying the fixed wait-one-hour message, whatever the
body holds — even one that is not valid JSON — so the body is never
parsed. -/
theorem make_request_429_limit_reached (server : Request → RawResponse)
    (self : Session) (operation endpoint : String)
    (payload data headers : Option (List (String × String)))
    (resp : RawResponse)
    (hresp : server (buildRequest self.headers operation endpoint
      (payload.getD []) (data.getD []) (headers.getD [])) = resp)
    (hstatus : resp.status_code = 429) :
    (make_request server self operation endpoint payload data headers).2 =
      .error (.limitReachedError ("You have reached your request limit. "
        ++ "Please wait one hour before trying again.")) := by
  simp [make_request, dispatchResponse, classifyResponse, hresp, hstatus,
    limitMessage]

/-- Witness for C2 with a body that is not even valid JSON. -/
theorem make_request_429_limit_reached_witness :
    (make_request (fun _ => RawResponse.mk 429 [] "Too Many Requests" none)
      (Nexus.init "ua" "key") "get" "test_endpoint3" none none none).2 =
      .error (.limitReachedError ("You have reached your request limit. "
        ++ "Please wait one hour before trying again.")) :=
  make_request_429_limit_reached
    (fun _ => RawResponse.mk 429 [] "Too Many Requests" none)
    (Nexus.init "ua" "key") "get" "test_endpoint3" none none none
    (RawResponse.mk 429 [] "Too Many Requests" none) rfl rfl

/-- C5: for every response with status code 503 or 504, `_make_request`
fails with `RequestError` whose message is built from the numeric status
code and the transport reason phrase, whatever the body holds — even one
that is not valid JSON — so the body is never parsed. -/
theorem make_request_503_504_reason (server : Request → RawResponse)
    (self : Session) (operation endpoint : String)
    (payload data headers : Option (List (String × String)))
    (resp : RawResponse)
    (hresp : server (buildRequest self.headers operation endpoint
      (payload.getD []) (data.getD []) (headers.getD [])) = resp)
    (hstatus : resp.status_code = 503 ∨ resp.status_code = 504) :
    (make_request server self operation endpoint payload data headers).2 =
        .error (.requestError (statusMessage resp.status_code resp.reason)) ∧
      strContains (statusMessage resp.status_code resp.reason)
        (toString resp.status_code) = true ∧
      strContains (statusMessage resp.status_code resp.reason) resp.reason = true := by
  refine ⟨?_, strContains_statusMessage_code _ _, strContains_statusMessage_msg _ _⟩
  rcases hstatus with h | h <;>
    simp [make_request, dispatchResponse, classifyResponse, hresp, h]

/-- Witness for C5 at status 503 with an unparseable body. -/
theorem make_request_503_504_reason_witness :
    (make_request (fun _ => RawResponse.mk 503 [] "Service Unavailable" none)
        (Nexus.init "ua" "key") "get" "users/validate.json" none none none).2 =
        .error (.requestError (statusMessage 503 "Service Unavailable")) ∧
      strContains (statusMessage 503 "Service Unavailable") (toString 503) = true ∧
      strContains (statusMessage 503 "Service Unavailable") "Service Unavailable"
        = true :=
  make_request_503_504_reason
    (fun _ => RawResponse.mk 503 [] "Service Unavailable" none)
    (Nexus.init "ua" "key") "get" "users/validate.json" none none none
    (RawResponse.mk 503 [] "Service Unavailable" none) rfl (.inl rfl)

/-- C3: for every response with a status code other than 200, 201, 429, 503
and 504, `_make_request` parses the body as JSON and fails with
`RequestError` whose message contains the numeric status code and the
body's `message` field value; if the `message` key is absent it falls back
to the `error` field value instead. -/
theorem make_request_other_status_error_fields (server : Request → RawResponse)
    (self : Session) (operation endpoint : String)
    (payload data headers : Option (List (String × String)))
    (resp : RawResponse) (fields : List (String × Json))
    (hresp : server (buildRequest self.headers operation endpoint
      (payload.getD []) (data.getD []) (headers.getD [])) = resp)
    (hstatus : resp.status_code ≠ 200 ∧ resp.status_code ≠ 201 ∧
      resp.status_code ≠ 429 ∧ resp.status_code ≠ 503 ∧ resp.status_code ≠ 504)
    (hbody : resp.body = some (.obj fields)) :
    (∀ m, fields.lookup "message" = some m →
      (make_request server self operation endpoint payload data headers).2 =
          .error (.requestError (statusMessage resp.status_code m.pyStr)) ∧
        strContains (statusMessage resp.status_code m.pyStr)
          (toString resp.status_code) = true ∧
        strContains (statusMessage resp.status_code m.pyStr) m.pyStr = true) ∧
    (fields.lookup "message" = none → ∀ m, fields.lookup "error" = some m →
      (make_request server self operation endpoint payload data headers).2 =
          .error (.requestError (statusMessage resp.status_code m.pyStr)) ∧
        strContains (statusMessage resp.status_code m.pyStr)
          (toString resp.status_code) = true ∧
        strContains (statusMessage resp.status_code m.pyStr) m.pyStr = true) := by
  obtain ⟨h1, h2, h3, h4, h5⟩ := hstatus
  constructor
  · intro m hm
    refine ⟨?_, strContains_statusMessage_code _ _, strContains_statusMessage_msg _ _⟩
    simp [make_request, dispatchResponse, classifyResponse, hresp, hbody,
      h1, h2, h3, h4, h5, hm]
  · intro hmsg m herr
    refine ⟨?_, strContains_statusMessage_code _ _, strContains_statusMessage_msg _ _⟩
    simp [make_request, dispatchResponse, classifyResponse, hresp, hbody,
      h1, h2, h3, h4, h5, hmsg, herr]

/-- Witness for C3: a 422 body with a `message` field, and a 404 body with
only an `error` field. -/
theorem make_request_other_status_error_fields_witness :
    ((make_request
        (fun _ => RawResponse.mk 422 [] "Unprocessable"
          (some (.obj [("message", .str "error message")])))
        (Nexus.init "ua" "key") "get" "test_endpoint2" none none none).2 =
        .error (.requestError (statusMessage 422 "error message")) ∧
      strContains (statusMessage 422 "error message") (toString 422) = true ∧
      strContains (statusMessage 422 "error message") "error message" = true) ∧
    ((make_request
        (fun _ => RawResponse.mk 404 [] "Not Found"
          (some (.obj [("error", .str "error message")])))
        (Nexus.init "ua" "key") "get" "test_endpoint1" none none none).2 =
        .error (.requestError (statusMessage 404 "error message")) ∧
      strContains (statusMessage 404 "error message") (toString 404) = true ∧
      strContains (statusMessage 404 "error message") "error message" = true) :=
  ⟨(make_request_other_status_error_fields
      (fun _ => RawResponse.mk 422 [] "Unprocessable"
        (some (.obj [("message", .str "error message")])))
      (Nexus.init "ua" "key") "get" "test_endpoint2" none none none
      (RawResponse.mk 422 [] "Unprocessable"
        (some (.obj [("message", .str "error message")])))
      [("message", .str "error message")] rfl
      ⟨by decide, by decide, by decide, by decide, by decide⟩ rfl).1
      (.str "error message") rfl,
    (make_request_other_status_error_fields
      (fun _ => RawResponse.mk 404 [] "Not Found"
        (some (.obj [("error", .str "error message")])))
      (Nexus.init "ua" "key") "get" "test_endpoint1" none none none
      (RawResponse.mk 404 [] "Not Found"
        (some (.obj [("error", .str "error message")])))
      [("error", .str "error message")] rfl
      ⟨by decide, by decide, by decide, by decide, by decide⟩ rfl).2
      rfl (.str "error message") rfl⟩

/-- C4: after every `_make_request` call, whatever the outcome, the
session's `nexus_headers` mapping holds exactly those response headers
whose names contain the case-sensitive substring `"X-"`, and no others. -/
theorem make_request_nexus_headers_exact (server : Request → RawResponse)
    (self : Session) (operation endpoint : String)
    (payload data headers : Option (List (String × String))) (k v : String) :
    (k, v) ∈ ((make_request server self operation endpoint payload data
        headers).1).nexus_headers ↔
      ((k, v) ∈ (server (buildRequest self.headers operation endpoint
          (payload.getD []) (data.getD []) (headers.getD []))).headers ∧
        strContains k "X-" = true) := by
  simp [make_request, dispatchResponse, List.mem_filter]

/-- C7: on a status code outside {200, 201, 429, 503, 504} whose JSON body
is a dict with neither a `message` nor an `error` key, `_make_request`
raises a bare `KeyError`, outside the error taxonomy the library declares,
and the `nexus_headers` refresh has still already taken place. -/
theorem make_request_missing_keys_keyerror (server : Request → RawResponse)
    (self : Session) (operation endpoint : String)
    (payload data headers : Option (List (String × String)))
    (resp : RawResponse) (fields : List (String × Json))
    (hresp : server (buildRequest self.headers operation endpoint
      (payload.getD []) (data.getD []) (headers.getD [])) = resp)
    (hstatus : resp.status_code ≠ 200 ∧ resp.status_code ≠ 201 ∧
      resp.status_code ≠ 429 ∧ resp.status_code ≠ 503 ∧ resp.status_code ≠ 504)
    (hbody : resp.body = some (.obj fields))
    (hmsg : fields.lookup "message" = none)
    (herr : fields.lookup "error" = none) :
    (make_request server self operation endpoint payload data headers).2 =
        .error (.keyError "error") ∧
      PyError.isDeclaredError (.keyError "error") = false ∧
      ((make_request server self operation endpoint payload data
          headers).1).nexus_headers =
        resp.headers.filter (fun kv => strContains kv.1 "X-") := by
  obtain ⟨h1, h2, h3, h4, h5⟩ := hstatus
  refine ⟨?_, rfl, ?_⟩
  · simp [make_request, dispatchResponse, classifyResponse, hresp, hbody,
      h1, h2, h3, h4, h5, hmsg, herr]
  · simp [make_request, dispatchResponse, hresp]

/-- Witness for C7: a 404 dict body with neither key; the refresh keeps the
one `"X-"` header. -/
theorem make_request_missing_keys_keyerror_witness :
    (make_request
        (fun _ => RawResponse.mk 404 [("X-RL-Remaining", "0"), ("Date", "now")]
          "Not Found" (some (.obj [("detail", .str "gone")])))
        (Nexus.init "ua" "key") "get" "test_endpoint1" none none none).2 =
        .error (.keyError "error") ∧
      PyError.isDeclaredError (.keyError "error") = false ∧
      ((make_request
          (fun _ => RawResponse.mk 404 [("X-RL-Remaining", "0"), ("Date", "now")]
            "Not Found" (some (.obj [("detail", .str "gone")])))
          (Nexus.init "ua" "key") "get" "test_endpoint1" none none none).1).nexus_headers =
        List.filter (fun kv => strContains kv.1 "X-")
          [("X-RL-Remaining", "0"), ("Date", "now")] :=
  make_request_missing_keys_keyerror
    (fun _ => RawResponse.mk 404 [("X-RL-Remaining", "0"), ("Date", "now")]
      "Not Found" (some (.obj [("detail", .str "gone")])))
    (Nexus.init "ua" "key") "get" "test_endpoint1" none none none
    (RawResponse.mk 404 [("X-RL-Remaining", "0"), ("Date", "now")]
      "Not Found" (some (.obj [("detail", .str "gone")])))
    [("detail", .str "gone")] rfl
    ⟨by decide, by decide, by decide, by decide, by decide⟩ rfl rfl rfl

/-- Concrete transport used by witnesses: every request succeeds with a
fixed JSON body. -/
def demoServer : Request → RawResponse :=
  fun _ => RawResponse.mk 200 [("X-RL", "38")] "OK"
    (some (.obj [("test", .str "content")]))

/-- Concrete session used by witnesses. -/
def demoSession : Session := Nexus.init "ua" "key"

/-- C6: `game_updated_list` rejects a period outside {"1d", "1w", "1m"}
locally with a `ValueError` and a result independent of the transport —
the dispatcher is never invoked; for a valid period the issued request's
query string is exactly `period=<value>`. -/
theorem game_updated_list_period_validation (self : Session) (game period : String) :
    (¬(period = "1d" ∨ period = "1w" ∨ period = "1m") →
      ∀ server : Request → RawResponse,
        game_updated_list server self game period =
          (self, .error (.valueError periodErrorMessage))) ∧
    ((period = "1d" ∨ period = "1w" ∨ period = "1m") →
      ∀ server : Request → RawResponse,
        game_updated_list server self game period =
            dispatchResponse self (server (buildRequest self.headers "get"
              ("games/" ++ game ++ "/mods/updated.json")
              [("period", period)] [] [])) ∧
          queryString [("period", period)] = "period=" ++ period) := by
  constructor
  · intro h server
    simp [game_updated_list, h]
  · intro h server
    constructor
    · simp [game_updated_list, h, make_request]
    · simp [queryString, String.intercalate, String.intercalate.go]

/-- Witness for C6: period "2d" is rejected without consulting the
transport; period "1d" issues a request with query string `period=1d`. -/
theorem game_updated_list_period_validation_witness :
    game_updated_list demoServer demoSession "skyrim" "2d" =
        (demoSession, .error (.valueError periodErrorMessage)) ∧
      (game_updated_list demoServer demoSession "skyrim" "1d" =
          dispatchResponse demoSession (demoServer (buildRequest
            demoSession.headers "get"
            ("games/" ++ "skyrim" ++ "/mods/updated.json")
            [("period", "1d")] [] [])) ∧
        queryString [("period", "1d")] = "period=" ++ "1d") :=
  ⟨(game_updated_list_period_validation demoSession "skyrim" "2d").1
      (by decide) demoServer,
    (game_updated_list_period_validation demoSession "skyrim" "1d").2
      (.inl rfl) demoServer⟩

/-- C8: with `nxm_key` or `expires` omitted, `mod_file_download_link`
issues its request with an empty params mapping and hence no query string;
likewise `mod_file_list` with no categories. -/
theorem omitted_optional_params_empty_query (server : Request → RawResponse)
    (self : Session) (game mod_id file_id : String)
    (nxm_key expires : Option String) :
    (nxm_key = none ∨ expires = none →
      mod_file_download_link server self game mod_id file_id nxm_key expires =
          dispatchResponse self (server (buildRequest self.headers "get"
            ("games/" ++ game ++ "/mods/" ++ mod_id ++ "/files/" ++ file_id
              ++ "/download_link.json") [] [] [])) ∧
        queryString [] = "") ∧
    (mod_file_list server self game mod_id .absent =
        dispatchResponse self (server (buildRequest self.headers "get"
          ("games/" ++ game ++ "/mods/" ++ mod_id ++ "/files.json") [] [] [])) ∧
      queryString [] = "") := by
  constructor
  · intro h
    refine ⟨?_, rfl⟩
    rcases h with h | h
    · subst h
      rfl
    · subst h
      cases nxm_key <;> rfl
  · exact ⟨rfl, rfl⟩

/-- Witness for C8: omitting `expires` yields an empty query. -/
theorem omitted_optional_params_empty_query_witness :
    (mod_file_download_link demoServer demoSession "skyrim" "266" "1000"
          (some "k") none =
        dispatchResponse demoSession (demoServer (buildRequest
          demoSession.headers "get"
          ("games/" ++ "skyrim" ++ "/mods/" ++ "266" ++ "/files/" ++ "1000"
            ++ "/download_link.json") [] [] [])) ∧
      queryString [] = "") :=
  (omitted_optional_params_empty_query demoServer demoSession "skyrim" "266"
    "1000" (some "k") none).1 (.inr rfl)

/-- C9: `user_tracked_add` issues a POST whose one-off urlencoded
content-type overrides the session's persistent `application/json` header
for that call only, with query `domain_name=<game>` and form body
`mod_id=<mod_id>`, leaving the session's persistent headers unchanged. -/
theorem user_tracked_add_form_request (server : Request → RawResponse)
    (user_agent api_key game mod_id : String) :
    ∃ req : Request,
      user_tracked_add server (Nexus.init user_agent api_key) game mod_id =
          ((dispatchResponse (Nexus.init user_agent api_key) (server req)).1,
            (dispatchResponse (Nexus.init user_agent api_key)
              (server req)).2.map (fun _ => ())) ∧
        req.operation = "POST" ∧
        req.params = [("domain_name", game)] ∧
        req.data = [("mod_id", mod_id)] ∧
        req.headers.lookup "content-type" =
          some "application/x-www-form-urlencoded" ∧
        (Nexus.init user_agent api_key).headers.lookup "content-type" =
          some "application/json" ∧
        (user_tracked_add server (Nexus.init user_agent api_key) game
            mod_id).1.headers =
          (Nexus.init user_agent api_key).headers := by
  refine ⟨buildRequest (Nexus.init user_agent api_key).headers "post"
    "user/tracked_mods.json" [("domain_name", game)] [("mod_id", mod_id)]
    [("content-type", "application/x-www-form-urlencoded")],
    rfl, ?_, rfl, rfl, ?_, ?_, rfl⟩
  · show strUpper "post" = "POST"
    decide
  · simp [buildRequest, mergeHeaders, Nexus.init, List.lookup]
  · simp [Nexus.init, List.lookup]

/-- Helper: against a transport that always answers 200 with body `j`,
`_make_request` returns `j`. -/
theorem make_request_ok_of_server (server : Request → RawResponse)
    (self : Session) (operation endpoint : String)
    (payload data headers : Option (List (String × String))) (j : Json)
    (hserver : ∀ req, (server req).status_code = 200 ∧ (server req).body = some j) :
    (make_request server self operation endpoint payload data headers).2 = .ok j := by
  obtain ⟨h1, h2⟩ := hserver (buildRequest self.headers operation endpoint
    (payload.getD []) (data.getD []) (headers.getD []))
  simp [make_request, dispatchResponse, classifyResponse, h1, h2]

/-- C10: on a transport that always succeeds with body `j`,
`user_tracked_add` and `user_tracked_delete` discard the decoded response
and return nothing, while every other endpoint method returns the decoded
result `j`. -/
theorem tracked_add_delete_discard_response (server : Request → RawResponse)
    (self : Session) (j : Json) (game mod_id file_id md5_hash : String)
    (include_unapproved : Bool) (categories : CategoriesArg)
    (nxm_key expires : Option String)
    (hserver : ∀ req, (server req).status_code = 200 ∧ (server req).body = some j) :
    (user_tracked_add server self game mod_id).2 = .ok () ∧
    (user_tracked_delete server self game mod_id).2 = .ok () ∧
    (colour_schemes_list server self).2 = .ok j ∧
    (user_details server self).2 = .ok j ∧
    (user_tracked_list server self).2 = .ok j ∧
    (user_endorsements_list server self).2 = .ok j ∧
    (game_details server self game).2 = .ok j ∧
    (game_list server self include_unapproved).2 = .ok j ∧
    (game_updated_list server self game "1d").2 = .ok j ∧
    (game_latest_added_list server self game).2 = .ok j ∧
    (game_latest_updated_list server self game).2 = .ok j ∧
    (game_trending_list server self game).2 = .ok j ∧
    (mod_details server self game mod_id).2 = .ok j ∧
    (mod_search server self game md5_hash).2 = .ok j ∧
    (mod_endorse server self game mod_id).2 = .ok j ∧
    (mod_abstain server self game mod_id).2 = .ok j ∧
    (mod_file_list server self game mod_id categories).2 = .ok j ∧
    (mod_file_details server self game mod_id file_id).2 = .ok j ∧
    (mod_file_download_link server self game mod_id file_id nxm_key
      expires).2 = .ok j ∧
    (mod_changelog_list server self game mod_id).2 = .ok j := by
  have hmk : ∀ (operation endpoint : String)
      (payload data headers : Option (List (String × String))),
      (make_request server self operation endpoint payload data headers).2 = .ok j :=
    fun operation endpoint payload data headers =>
      make_request_ok_of_server server self operation endpoint payload data
        headers j hserver
  refine ⟨?_, ?_, ?_, ?_, ?_, ?_, ?_, ?_, ?_, ?_, ?_, ?_, ?_, ?_, ?_, ?_,
    ?_, ?_, ?_, ?_⟩
  · simp [user_tracked_add, hmk, Except.map]
  · simp [user_tracked_delete, hmk, Except.map]
  · simp [colour_schemes_list, hmk]
  · simp [user_details, hmk]
  · simp [user_tracked_list, hmk]
  · simp [user_endorsements_list, hmk]
  · simp [game_details, hmk]
  · simp [game_list, hmk]
  · simp [game_updated_list, hmk]
  · simp [game_latest_added_list, hmk]
  · simp [game_latest_updated_list, hmk]
  · simp [game_trending_list, hmk]
  · simp [mod_details, hmk]
  · simp [mod_search, hmk]
  · simp [mod_endorse, hmk]
  · simp [mod_abstain, hmk]
  · cases categories <;> simp [mod_file_list, hmk]
  · simp [mod_file_details, hmk]
  · cases nxm_key <;> cases expires <;> simp [mod_file_download_link, hmk]
  · simp [mod_changelog_list, hmk]

/-- Witness for C10 on the always-succeeding demo transport. -/
theorem tracked_add_delete_discard_response_witness :
    (user_tracked_add demoServer demoSession "skyrim" "266").2 = .ok () ∧
    (user_tracked_delete demoServer demoSession "skyrim" "266").2 = .ok () ∧
    (colour_schemes_list demoServer demoSession).2 =
      .ok (.obj [("test", .str "content")]) ∧
    (user_details demoServer demoSession).2 =
      .ok (.obj [("test", .str "content")]) ∧
    (user_tracked_list demoServer demoSession).2 =
      .ok (.obj [("test", .str "content")]) ∧
    (user_endorsements_list demoServer demoSession).2 =
      .ok (.obj [("test", .str "content")]) ∧
    (game_details demoServer demoSession "skyrim").2 =
      .ok (.obj [("test", .str "content")]) ∧
    (game_list demoServer demoSession false).2 =
      .ok (.obj [("test", .str "content")]) ∧
    (game_updated_list demoServer demoSession "skyrim" "1d").2 =
      .ok (.obj [("test", .str "content")]) ∧
    (game_latest_added_list demoServer demoSession "skyrim").2 =
      .ok (.obj [("test", .str "content")]) ∧
    (game_latest_updated_list demoServer demoSession "skyrim").2 =
      .ok (.obj [("test", .str "content")]) ∧
    (game_trending_list demoServer demoSession "skyrim").2 =
      .ok (.obj [("test", .str "content")]) ∧
    (mod_details demoServer demoSession "skyrim" "266").2 =
      .ok (.obj [("test", .str "content")]) ∧
    (mod_search demoServer demoSession "skyrim" "abc123").2 =
      .ok (.obj [("test", .str "content")]) ∧
    (mod_endorse demoServer demoSession "skyrim" "266").2 =
      .ok (.obj [("test", .str "content")]) ∧
    (mod_abstain demoServer demoSession "skyrim" "266").2 =
      .ok (.obj [("test", .str "content")]) ∧
    (mod_file_list demoServer demoSession "skyrim" "266" .absent).2 =
      .ok (.obj [("test", .str "content")]) ∧
    (mod_file_details demoServer demoSession "skyrim" "266" "1000").2 =
      .ok (.obj [("test", .str "content")]) ∧
    (mod_file_download_link demoServer demoSession "skyrim" "266" "1000"
      none none).2 = .ok (.obj [("test", .str "content")]) ∧
    (mod_changelog_list demoServer demoSession "skyrim" "266").2 =
      .ok (.obj [("test", .str "content")]) :=
  tracked_add_delete_discard_response demoServer demoSession
    (.obj [("test", .str "content")]) "skyrim" "266" "1000" "abc123"
    false .absent none none (fun _ => ⟨rfl, rfl⟩)

end Pynxm
